import Mathlib

/-!
Shallow embedding of the two example programs of this repository,
`examples/exAdvection.cpp` and `examples/distance.cpp`, together with proofs
of the stated properties of their integrators, solver configuration and
post-processing stages.

Conventions: machine `double` values are modelled by `ℝ`; MFEM `Vector`s and
`DenseMatrix`es are modelled by total functions `ℕ → ℝ` (resp. `ℕ → ℕ → ℝ`)
that are zero outside the declared size; fallible code returns `Except`.
-/

namespace MfemExamples

/-! ### DGFaceIntegrator::AssembleFaceMatrix (exAdvection.cpp, lines 223-330)

The meshes of `exAdvection.cpp` are one dimensional (`Mesh(N, 1)`), so the
face "normal" vector has a single component, set on line 280 as
`nor(0) = 2 * eip1.x - 1.0`, and the normal velocity `un = vu * nor`
(line 282) is the product of the single velocity component with it. -/

/-- The local normal convention of line 280: `nor(0) = 2 * eip1.x - 1.0`. -/
def faceNormal (eip1x : ℝ) : ℝ := 2 * eip1x - 1

/-- The normal velocity `un = vu * nor` of line 282, in one dimension the
product of the velocity component `vu(0)` with the signed normal. -/
def normalVelocity (vu eip1x : ℝ) : ℝ := vu * faceNormal eip1x

/-- Data of one face quadrature point as used by the loop body of
`DGFaceIntegrator::AssembleFaceMatrix` (lines 265-329): the quadrature weight
`ip.weight`, the element-1 reference coordinate `eip1.x` of the mapped point,
the velocity component `vu(0)` evaluated on the element-1 side, and the shape
values `shape1`, `shape2` of the two adjacent elements at the mapped points. -/
structure FaceQuadPoint where
  ipweight : ℝ
  eip1x : ℝ
  vu : ℝ
  shape1 : ℕ → ℝ
  shape2 : ℕ → ℝ

/-- The contribution of a single quadrature point to entry `(r, c)` of the
local face matrix `elmat`, following the loop body of lines 265-329:
with `a = un`, `b = fabs(un)`, the weight `w = 0.5 * ip.weight * (a + b)` is
added on the element-1/element-1 block (`elmat(i,j) += w*shape1(i)*shape1(j)`)
and subtracted on the element-1-rows/element-2-columns block
(`elmat(j, ndof1+i) -= w*shape2(i)*shape1(j)`); then `w` is reassigned to
`0.5 * ip.weight * (a - b)` (line 313), subtracted on the element-2/element-2
block (`elmat(ndof1+i, ndof1+j) -= w*shape2(i)*shape2(j)`) and added on the
element-2-rows/element-1-columns block (`elmat(ndof1+j, i) += w*shape1(i)*shape2(j)`).
The `if (w != 0.0)` guards of the source skip additions of zero and do not
change the accumulated value. -/
def faceMatrixQP (ndof1 ndof2 : ℕ) (qp : FaceQuadPoint) (r c : ℕ) : ℝ :=
  let un := normalVelocity qp.vu qp.eip1x
  let a := un
  let b := |un|
  let w1 := 0.5 * qp.ipweight * (a + b)
  let w2 := 0.5 * qp.ipweight * (a - b)
  if r < ndof1 ∧ c < ndof1 then
    w1 * qp.shape1 r * qp.shape1 c
  else if r < ndof1 ∧ ndof1 ≤ c ∧ c < ndof1 + ndof2 then
    -(w1 * qp.shape2 (c - ndof1) * qp.shape1 r)
  else if ndof1 ≤ r ∧ r < ndof1 + ndof2 ∧ ndof1 ≤ c ∧ c < ndof1 + ndof2 then
    -(w2 * qp.shape2 (r - ndof1) * qp.shape2 (c - ndof1))
  else if ndof1 ≤ r ∧ r < ndof1 + ndof2 ∧ c < ndof1 then
    w2 * qp.shape1 c * qp.shape2 (r - ndof1)
  else 0

/-- `DGFaceIntegrator::AssembleFaceMatrix`: `elmat.SetSize(ndof1 + ndof2)`,
`elmat = 0.0` (lines 243-244), then the quadrature loop accumulates each
point's contribution into `elmat`. -/
def AssembleFaceMatrix (ndof1 ndof2 : ℕ) (ir : List FaceQuadPoint) (r c : ℕ) : ℝ :=
  ir.foldl (fun acc qp => acc + faceMatrixQP ndof1 ndof2 qp r c) 0

/-- Determination of `ndof2` (lines 233-241): `el2.GetDof()` when
`Trans.Elem2No >= 0`, and `0` for a boundary face. -/
def faceNdof2 (elem2No : ℤ) (el2dof : ℕ) : ℕ :=
  if 0 ≤ elem2No then el2dof else 0

/-- Block formula for element-1 rows, element-1 columns. -/
lemma faceMatrixQP_block11 (ndof1 ndof2 : ℕ) (qp : FaceQuadPoint) (r c : ℕ)
    (hr : r < ndof1) (hc : c < ndof1) :
    faceMatrixQP ndof1 ndof2 qp r c =
      0.5 * qp.ipweight *
          (normalVelocity qp.vu qp.eip1x + |normalVelocity qp.vu qp.eip1x|) *
        qp.shape1 r * qp.shape1 c := by
  simp [faceMatrixQP, hr, hc]

/-- Block formula for element-1 rows, element-2 columns. -/
lemma faceMatrixQP_block12 (ndof1 ndof2 : ℕ) (qp : FaceQuadPoint) (r c : ℕ)
    (hr : r < ndof1) (hc : ndof1 ≤ c) (hc2 : c < ndof1 + ndof2) :
    faceMatrixQP ndof1 ndof2 qp r c =
      -(0.5 * qp.ipweight *
            (normalVelocity qp.vu qp.eip1x + |normalVelocity qp.vu qp.eip1x|) *
          qp.shape2 (c - ndof1) * qp.shape1 r) := by
  have hcn : ¬ c < ndof1 := not_lt.mpr hc
  simp [faceMatrixQP, hr, hc, hc2, hcn]

/-- Block formula for element-2 rows, element-2 columns. -/
lemma faceMatrixQP_block22 (ndof1 ndof2 : ℕ) (qp : FaceQuadPoint) (r c : ℕ)
    (hr : ndof1 ≤ r) (hr2 : r < ndof1 + ndof2) (hc : ndof1 ≤ c) (hc2 : c < ndof1 + ndof2) :
    faceMatrixQP ndof1 ndof2 qp r c =
      -(0.5 * qp.ipweight *
            (normalVelocity qp.vu qp.eip1x - |normalVelocity qp.vu qp.eip1x|) *
          qp.shape2 (r - ndof1) * qp.shape2 (c - ndof1)) := by
  have hrn : ¬ r < ndof1 := not_lt.mpr hr
  have hcn : ¬ c < ndof1 := not_lt.mpr hc
  simp [faceMatrixQP, hr, hr2, hc, hc2, hrn, hcn]

/-- Block formula for element-2 rows, element-1 columns. -/
lemma faceMatrixQP_block21 (ndof1 ndof2 : ℕ) (qp : FaceQuadPoint) (r c : ℕ)
    (hr : ndof1 ≤ r) (hr2 : r < ndof1 + ndof2) (hc : c < ndof1) :
    faceMatrixQP ndof1 ndof2 qp r c =
      0.5 * qp.ipweight *
          (normalVelocity qp.vu qp.eip1x - |normalVelocity qp.vu qp.eip1x|) *
        qp.shape1 c * qp.shape2 (r - ndof1) := by
  have hrn : ¬ r < ndof1 := not_lt.mpr hr
  have hcn : ¬ ndof1 ≤ c := not_le.mpr hc
  simp [faceMatrixQP, hr, hr2, hc, hrn, hcn]

/-- Entries outside the declared `(ndof1 + ndof2) × (ndof1 + ndof2)` size are zero. -/
lemma faceMatrixQP_out_of_range (ndof1 ndof2 : ℕ) (qp : FaceQuadPoint) (r c : ℕ)
    (h : ndof1 + ndof2 ≤ r ∨ ndof1 + ndof2 ≤ c) :
    faceMatrixQP ndof1 ndof2 qp r c = 0 := by
  rcases h with h | h
  · have hr1 : ¬ r < ndof1 := by omega
    have hr2 : ¬ r < ndof1 + ndof2 := by omega
    simp [faceMatrixQP, hr1, hr2]
  · have hc1 : ¬ c < ndof1 := by omega
    have hc2 : ¬ c < ndof1 + ndof2 := by omega
    by_cases hr : r < ndof1 <;> simp [faceMatrixQP, hr, hc1, hc2]

/-- C1: in `DGFaceIntegrator::AssembleFaceMatrix`, at every face quadrature
point the weight applied to element-1 row entries is `0.5 * (un + |un|)` and
the weight applied to element-2 row entries is `0.5 * (un - |un|)`, where
`un` is the normal velocity (each multiplied by the quadrature weight and the
shape values of the entry); consequently, whenever `un > 0` every element-2
row entry of the point's contribution is zero, and whenever `un < 0` the
element-1-rows/element-2-columns cross block of the point's contribution is
zero. -/
theorem dgface_upwind_weights (ndof1 ndof2 : ℕ) (qp : FaceQuadPoint) (un : ℝ)
    (hun : un = normalVelocity qp.vu qp.eip1x) :
    (∀ r c, r < ndof1 → c < ndof1 →
      faceMatrixQP ndof1 ndof2 qp r c =
        0.5 * (un + |un|) * (qp.ipweight * qp.shape1 r * qp.shape1 c)) ∧
    (∀ r c, r < ndof1 → ndof1 ≤ c → c < ndof1 + ndof2 →
      faceMatrixQP ndof1 ndof2 qp r c =
        -(0.5 * (un + |un|) * (qp.ipweight * qp.shape2 (c - ndof1) * qp.shape1 r))) ∧
    (∀ r c, ndof1 ≤ r → r < ndof1 + ndof2 → ndof1 ≤ c → c < ndof1 + ndof2 →
      faceMatrixQP ndof1 ndof2 qp r c =
        -(0.5 * (un - |un|) * (qp.ipweight * qp.shape2 (r - ndof1) * qp.shape2 (c - ndof1)))) ∧
    (∀ r c, ndof1 ≤ r → r < ndof1 + ndof2 → c < ndof1 →
      faceMatrixQP ndof1 ndof2 qp r c =
        0.5 * (un - |un|) * (qp.ipweight * qp.shape1 c * qp.shape2 (r - ndof1))) ∧
    (0 < un → ∀ r c, ndof1 ≤ r → faceMatrixQP ndof1 ndof2 qp r c = 0) ∧
    (un < 0 → ∀ r c, r < ndof1 → ndof1 ≤ c → faceMatrixQP ndof1 ndof2 qp r c = 0) := by
  subst hun
  set u := normalVelocity qp.vu qp.eip1x with hu
  refine ⟨?_, ?_, ?_, ?_, ?_, ?_⟩
  · intro r c hr hc
    rw [faceMatrixQP_block11 ndof1 ndof2 qp r c hr hc]
    ring
  · intro r c hr hc hc2
    rw [faceMatrixQP_block12 ndof1 ndof2 qp r c hr hc hc2]
    ring_nf
  · intro r c hr hr2 hc hc2
    rw [faceMatrixQP_block22 ndof1 ndof2 qp r c hr hr2 hc hc2]
    ring_nf
  · intro r c hr hr2 hc
    rw [faceMatrixQP_block21 ndof1 ndof2 qp r c hr hr2 hc]
    ring
  · intro hpos r c hr
    have habs : |u| = u := abs_of_pos hpos
    by_cases hr2 : r < ndof1 + ndof2
    · by_cases hc : c < ndof1
      · rw [faceMatrixQP_block21 ndof1 ndof2 qp r c hr hr2 hc, ← hu, habs]
        ring
      · by_cases hc2 : c < ndof1 + ndof2
        · rw [faceMatrixQP_block22 ndof1 ndof2 qp r c hr hr2 (not_lt.mp hc) hc2, ← hu, habs]
          ring
        · exact faceMatrixQP_out_of_range ndof1 ndof2 qp r c (Or.inr (not_lt.mp hc2))
    · exact faceMatrixQP_out_of_range ndof1 ndof2 qp r c (Or.inl (not_lt.mp hr2))
  · intro hneg r c hr hc
    have habs : |u| = -u := abs_of_neg hneg
    by_cases hc2 : c < ndof1 + ndof2
    · rw [faceMatrixQP_block12 ndof1 ndof2 qp r c hr hc hc2, ← hu, habs]
      ring
    · exact faceMatrixQP_out_of_range ndof1 ndof2 qp r c (Or.inr (not_lt.mp hc2))

/-- Witness for C1 at a concrete quadrature point: with `ndof1 = ndof2 = 1`,
unit weight and shape values, `eip1.x = 1` and velocity `-2` (so `un = -2 < 0`),
the element-1-row cross entry `(0, 1)` of the point's contribution vanishes. -/
theorem dgface_upwind_weights_witness :
    faceMatrixQP 1 1 ⟨1, 1, -2, fun _ => 1, fun _ => 1⟩ 0 1 = 0 :=
  (dgface_upwind_weights 1 1 ⟨1, 1, -2, fun _ => 1, fun _ => 1⟩ (-2)
      (by norm_num [normalVelocity, faceNormal])).2.2.2.2.2
    (by norm_num) 0 1 (by norm_num) (by norm_num)

/-- The quadrature fold with an arbitrary accumulator splits off the accumulator. -/
lemma faceMatrix_foldl_acc (ndof1 ndof2 : ℕ) (ir : List FaceQuadPoint) (r c : ℕ)
    (acc : ℝ) :
    ir.foldl (fun a qp => a + faceMatrixQP ndof1 ndof2 qp r c) acc =
      acc + AssembleFaceMatrix ndof1 ndof2 ir r c := by
  induction ir generalizing acc with
  | nil => simp [AssembleFaceMatrix]
  | cons qp rest ih =>
      simp only [AssembleFaceMatrix, List.foldl_cons] at *
      rw [ih, ih (0 + faceMatrixQP ndof1 ndof2 qp r c)]
      ring

/-- Accumulating one more quadrature point adds that point's contribution. -/
lemma assembleFaceMatrix_cons (ndof1 ndof2 : ℕ) (qp : FaceQuadPoint)
    (ir : List FaceQuadPoint) (r c : ℕ) :
    AssembleFaceMatrix ndof1 ndof2 (qp :: ir) r c =
      faceMatrixQP ndof1 ndof2 qp r c + AssembleFaceMatrix ndof1 ndof2 ir r c := by
  simp only [AssembleFaceMatrix, List.foldl_cons]
  rw [faceMatrix_foldl_acc]
  simp only [AssembleFaceMatrix]
  ring

/-- The accumulated face matrix is zero outside the declared size. -/
lemma assembleFaceMatrix_out_of_range (ndof1 ndof2 : ℕ) (ir : List FaceQuadPoint)
    (r c : ℕ) (h : ndof1 + ndof2 ≤ r ∨ ndof1 + ndof2 ≤ c) :
    AssembleFaceMatrix ndof1 ndof2 ir r c = 0 := by
  induction ir with
  | nil => simp [AssembleFaceMatrix]
  | cons qp rest ih =>
      rw [assembleFaceMatrix_cons, ih, faceMatrixQP_out_of_range ndof1 ndof2 qp r c h]
      ring

/-- C4: for an interior face, `AssembleFaceMatrix` starts from a
zero-initialized local matrix of size `(ndof1+ndof2) × (ndof1+ndof2)` (the
empty quadrature rule yields the zero matrix, and every entry outside the
declared size is zero), accumulates the quadrature points one by one, and each
point's contribution consists of four dense blocks with alternating signs:
the element-1/element-1 block enters with `+`, the element-2 contribution to
element-1 rows with `-`, the element-2/element-2 block with `-`, and the
element-1 contribution to element-2 rows with `+`. -/
theorem dgface_block_structure (ndof1 ndof2 : ℕ) (ir : List FaceQuadPoint) :
    (∀ r c, AssembleFaceMatrix ndof1 ndof2 [] r c = 0) ∧
    (∀ r c, ndof1 + ndof2 ≤ r ∨ ndof1 + ndof2 ≤ c →
      AssembleFaceMatrix ndof1 ndof2 ir r c = 0) ∧
    (∀ qp r c, AssembleFaceMatrix ndof1 ndof2 (qp :: ir) r c =
      faceMatrixQP ndof1 ndof2 qp r c + AssembleFaceMatrix ndof1 ndof2 ir r c) ∧
    (∀ qp : FaceQuadPoint, ∀ r c un, un = normalVelocity qp.vu qp.eip1x →
      (r < ndof1 ∧ c < ndof1 →
        faceMatrixQP ndof1 ndof2 qp r c =
          0.5 * qp.ipweight * (un + |un|) * qp.shape1 r * qp.shape1 c) ∧
      (r < ndof1 ∧ ndof1 ≤ c ∧ c < ndof1 + ndof2 →
        faceMatrixQP ndof1 ndof2 qp r c =
          -(0.5 * qp.ipweight * (un + |un|) * qp.shape2 (c - ndof1) * qp.shape1 r)) ∧
      (ndof1 ≤ r ∧ r < ndof1 + ndof2 ∧ ndof1 ≤ c ∧ c < ndof1 + ndof2 →
        faceMatrixQP ndof1 ndof2 qp r c =
          -(0.5 * qp.ipweight * (un - |un|) * qp.shape2 (r - ndof1) * qp.shape2 (c - ndof1))) ∧
      (ndof1 ≤ r ∧ r < ndof1 + ndof2 ∧ c < ndof1 →
        faceMatrixQP ndof1 ndof2 qp r c =
          0.5 * qp.ipweight * (un - |un|) * qp.shape1 c * qp.shape2 (r - ndof1))) := by
  refine ⟨?_, ?_, ?_, ?_⟩
  · intro r c
    simp [AssembleFaceMatrix]
  · intro r c h
    exact assembleFaceMatrix_out_of_range ndof1 ndof2 ir r c h
  · intro qp r c
    exact assembleFaceMatrix_cons ndof1 ndof2 qp ir r c
  · intro qp r c un hun
    subst hun
    refine ⟨?_, ?_, ?_, ?_⟩
    · rintro ⟨hr, hc⟩
      exact faceMatrixQP_block11 ndof1 ndof2 qp r c hr hc
    · rintro ⟨hr, hc, hc2⟩
      exact faceMatrixQP_block12 ndof1 ndof2 qp r c hr hc hc2
    · rintro ⟨hr, hr2, hc, hc2⟩
      exact faceMatrixQP_block22 ndof1 ndof2 qp r c hr hr2 hc hc2
    · rintro ⟨hr, hr2, hc⟩
      exact faceMatrixQP_block21 ndof1 ndof2 qp r c hr hr2 hc

/-- Witness for C4 at a concrete face: with one degree of freedom on each
side, unit data and `un = 1`, the element-2/element-2 entry of the one-point
face matrix is `-0` contribution from its block sign, evaluated concretely. -/
theorem dgface_block_structure_witness :
    AssembleFaceMatrix 1 1 [⟨1, 1, 3, fun _ => 1, fun _ => 1⟩] 1 0 = 0 := by
  have h := (dgface_block_structure 1 1 []).2.2.2
      ⟨1, 1, 3, fun _ => 1, fun _ => 1⟩ 1 0 3 (by norm_num [normalVelocity, faceNormal])
  have hb := h.2.2.2 (by norm_num)
  have hcons := (dgface_block_structure 1 1 []).2.2.1 ⟨1, 1, 3, fun _ => 1, fun _ => 1⟩ 1 0
  rw [hcons, hb, (dgface_block_structure 1 1 []).1 1 0]
  norm_num

/-! ### BoundaryAdvectIntegrator::AssembleRHSElementVect, face overload
(exAdvection.cpp, lines 332-373) -/

/-- The upwind weight of line 367: `w = -0.5 * (un - fabs(un))`. -/
def bdrAdvectWeight (un : ℝ) : ℝ := -0.5 * (un - |un|)

/-- Data of one boundary-face quadrature point as used by the loop of
lines 357-372: quadrature weight `ip.weight`, element reference coordinate
`eip.x`, velocity component `vu(0)` on the element-1 side, the prescribed
boundary value `uD->Eval(*Tr.Elem1, eip)`, and the element shape values. -/
structure BdrQuadPoint where
  ipweight : ℝ
  eipx : ℝ
  vu : ℝ
  uD : ℝ
  shape : ℕ → ℝ

/-- One quadrature point's contribution to entry `i` of `elvect`
(lines 357-372): `w = -0.5*(un - fabs(un))`, then `w *= ip.weight * uD`,
then `elvect.Add(w, shape)`. -/
def bdrAdvectQP (qp : BdrQuadPoint) (i : ℕ) : ℝ :=
  let un := normalVelocity qp.vu qp.eipx
  (bdrAdvectWeight un * (qp.ipweight * qp.uD)) * qp.shape i

/-- A fold of additions splits off its accumulator. -/
lemma foldl_add_acc {α : Type} (f : α → ℝ) (l : List α) (acc : ℝ) :
    l.foldl (fun a x => a + f x) acc = acc + l.foldl (fun a x => a + f x) 0 := by
  induction l generalizing acc with
  | nil => simp
  | cons x rest ih =>
      simp only [List.foldl_cons]
      rw [ih, ih (0 + f x)]
      ring

/-- The face overload of `BoundaryAdvectIntegrator::AssembleRHSElementVect`:
`elvect.SetSize(ndof)`, `elvect = 0.0`, then the quadrature loop accumulates
each point's contribution (lines 332-373). -/
def BoundaryAdvect_RHSVect_face (ndof : ℕ) (ir : List BdrQuadPoint) (i : ℕ) : ℝ :=
  if i < ndof then ir.foldl (fun acc qp => acc + bdrAdvectQP qp i) 0 else 0

/-- C3: for a boundary face (`Trans.Elem2No < 0`) the integrator sets
`ndof2 = 0` and the assembled face matrix is supported on the element-1 block
of size `ndof1 × ndof1`; the companion boundary linear-form integrator
produces a right-hand-side vector accumulated per quadrature point with
contribution `-0.5*(un - |un|)` times the quadrature weight times the
prescribed boundary value `uD`, times the shape value, and the upwind factor
`-0.5*(un - |un|)` is nonzero if and only if `un < 0`. -/
theorem dgface_boundary_inflow_rhs :
    (∀ elem2No : ℤ, ∀ el2dof : ℕ, elem2No < 0 → faceNdof2 elem2No el2dof = 0) ∧
    (∀ ndof1 : ℕ, ∀ ir : List FaceQuadPoint, ∀ r c : ℕ,
      ndof1 ≤ r ∨ ndof1 ≤ c → AssembleFaceMatrix ndof1 0 ir r c = 0) ∧
    (∀ ndof : ℕ, ∀ qp : BdrQuadPoint, ∀ ir : List BdrQuadPoint, ∀ i : ℕ, ∀ un : ℝ,
      un = normalVelocity qp.vu qp.eipx → i < ndof →
      BoundaryAdvect_RHSVect_face ndof (qp :: ir) i =
        (-0.5 * (un - |un|)) * (qp.ipweight * qp.uD) * qp.shape i +
          BoundaryAdvect_RHSVect_face ndof ir i) ∧
    (∀ un : ℝ, bdrAdvectWeight un ≠ 0 ↔ un < 0) := by
  refine ⟨?_, ?_, ?_, ?_⟩
  · intro elem2No el2dof h
    have hn : ¬ (0 : ℤ) ≤ elem2No := not_le.mpr h
    simp [faceNdof2, hn]
  · intro ndof1 ir r c h
    exact assembleFaceMatrix_out_of_range ndof1 0 ir r c (by omega)
  · intro ndof qp ir i un hun hi
    subst hun
    simp only [BoundaryAdvect_RHSVect_face, if_pos hi, List.foldl_cons]
    rw [foldl_add_acc, bdrAdvectQP, bdrAdvectWeight]
    ring
  · intro un
    rcases lt_or_le un 0 with h | h
    · have habs : |un| = -un := abs_of_neg h
      constructor
      · intro _
        exact h
      · intro _
        rw [bdrAdvectWeight, habs]
        intro hzero
        nlinarith
    · have habs : |un| = un := abs_of_nonneg h
      constructor
      · intro hne
        exfalso
        apply hne
        rw [bdrAdvectWeight, habs]
        ring
      · intro hlt
        exact absurd hlt (not_lt.mpr h)

/-- Witness for C3: the concrete upwind factor at `un = -3` is nonzero,
and at a concrete boundary quadrature point with `un = -3` the one-point
right-hand side entry equals `3` times the data product. -/
theorem dgface_boundary_inflow_rhs_witness :
    bdrAdvectWeight (-3) ≠ 0 ∧
      BoundaryAdvect_RHSVect_face 1 [⟨1, 0, 3, 1, fun _ => 1⟩] 0 = 3 := by
  constructor
  · exact (dgface_boundary_inflow_rhs.2.2.2 (-3)).mpr (by norm_num)
  · have h := dgface_boundary_inflow_rhs.2.2.1 1 ⟨1, 0, 3, 1, fun _ => 1⟩ [] 0 (-3)
      (by norm_num [normalVelocity, faceNormal]) (by norm_num)
    rw [h]
    norm_num [BoundaryAdvect_RHSVect_face]

/-! ### Fatal-error overloads (exAdvection.cpp, lines 172-179 and 375-382)

Fallible code is modelled with `Except String`: `mfem_error` and a failing
`MFEM_ASSERT` become `Except.error` carrying the source's message, and a
normal return becomes `Except.ok` carrying the produced vector. -/

/-- The non-face overload of `BoundaryAdvectIntegrator::AssembleRHSElementVect`
(lines 375-382): it unconditionally calls `mfem_error` with a descriptive
message, for every element and transformation, and never produces `elvect`.
The argument `eldof` stands for the (ignored) element data `el.GetDof()`. -/
def BoundaryAdvect_RHSVect_nonFace (_eldof : ℕ) : Except String (ℕ → ℝ) :=
  Except.error ("BoundaryFlowIntegrator::AssembleRHSElementVect\n" ++
    "  is not implemented as boundary integrator!\n" ++
    "  Use LinearForm::AddBdrFaceIntegrator instead of\n" ++
    "  LinearForm::AddBoundaryIntegrator.")

/-- C6: calling `BoundaryAdvectIntegrator::AssembleRHSElementVect` with a
plain (non-face) `ElementTransformation` always halts with a fatal error
carrying a nonempty descriptive message, for every input, and never returns
a vector. -/
theorem boundaryAdvect_nonface_fatal :
    ∀ eldof : ℕ,
      (∃ msg : String, BoundaryAdvect_RHSVect_nonFace eldof = Except.error msg ∧
        msg ≠ "") ∧
      ∀ v : ℕ → ℝ, BoundaryAdvect_RHSVect_nonFace eldof ≠ Except.ok v := by
  intro eldof
  constructor
  · refine ⟨_, rfl, ?_⟩
    decide
  · intro v h
    exact Except.noConfusion h

/-- Witness for C6 at the concrete input `eldof = 4`: the call does not
return the zero vector. -/
theorem boundaryAdvect_nonface_fatal_witness :
    BoundaryAdvect_RHSVect_nonFace 4 ≠ Except.ok (fun _ => 0) :=
  (boundaryAdvect_nonface_fatal 4).2 (fun _ => 0)

/-- `AdvDomainLFIntegrator::AssembleDeltaElementVect` (lines 172-179):
`MFEM_ASSERT(delta != NULL, "coefficient must be DeltaCoefficient")`, then
`elvect.SetSize(fe.GetDof())`, `fe.CalcPhysShape(Trans, elvect)`, and
`elvect *= delta->EvalDelta(Trans, Trans.GetIntPoint())`. The delta
coefficient is modelled by `Option ℝ`: `none` when no delta source is set,
`some dval` carrying the value `EvalDelta` returns at the transform's point;
`physShape` carries the physical shape values `CalcPhysShape` fills in at
that single location. -/
def AssembleDeltaElementVect (delta : Option ℝ) (dof : ℕ) (physShape : ℕ → ℝ) :
    Except String (ℕ → ℝ) :=
  match delta with
  | none => Except.error "coefficient must be DeltaCoefficient"
  | some dval => Except.ok (fun i => if i < dof then physShape i * dval else 0)

/-- C7: `AssembleDeltaElementVect` performs no quadrature loop — when a delta
coefficient is set it returns the physical shape values at the single
transform location scaled entrywise by the delta coefficient's value there —
and it fails with a fatal assertion carrying a descriptive message when no
delta coefficient is set. -/
theorem assembleDelta_single_point :
    (∀ dval : ℝ, ∀ dof : ℕ, ∀ physShape : ℕ → ℝ,
      AssembleDeltaElementVect (some dval) dof physShape =
        Except.ok (fun i => if i < dof then physShape i * dval else 0)) ∧
    (∀ dof : ℕ, ∀ physShape : ℕ → ℝ,
      AssembleDeltaElementVect none dof physShape =
        Except.error "coefficient must be DeltaCoefficient" ∧
      ∀ v : ℕ → ℝ, AssembleDeltaElementVect none dof physShape ≠ Except.ok v) := by
  refine ⟨fun dval dof physShape => rfl, fun dof physShape => ⟨rfl, ?_⟩⟩
  intro v h
  exact Except.noConfusion h

/-- Witness for C7 at concrete data: with delta value `2`, one degree of
freedom and physical shape value `5`, entry `0` of the produced vector is
`10`; with no delta coefficient the call fails. -/
theorem assembleDelta_single_point_witness :
    (∃ v : ℕ → ℝ, AssembleDeltaElementVect (some 2) 1 (fun _ => 5) = Except.ok v ∧
      v 0 = 10) ∧
    AssembleDeltaElementVect none 1 (fun _ => 5) =
      Except.error "coefficient must be DeltaCoefficient" := by
  constructor
  · refine ⟨_, assembleDelta_single_point.1 2 1 (fun _ => 5), ?_⟩
    norm_num
  · exact (assembleDelta_single_point.2 1 (fun _ => 5)).1

/-! ### distance.cpp

Physical points carry up to two used coordinates (`x(0)`, `x(1)`); the exact
distance coefficients are curried functions of those two coordinates. -/

/-- `ExactSegmentDistCoeff::Eval` (distance.cpp lines 61-69):
`min(x(0), 1.0 - x(0))` at the transformed physical point. -/
def ExactSegmentDist (x0 _x1 : ℝ) : ℝ := min x0 (1 - x0)

/-- `ExactQuadDistCoeff::Eval` (lines 71-79). -/
def ExactQuadDist (x0 x1 : ℝ) : ℝ := min (min x0 (1 - x0)) (min x1 (1 - x1))

/-- `ExactCircleDistCoeff::Eval` (lines 81-90). -/
noncomputable def ExactCircleDist (x0 x1 : ℝ) : ℝ := 1 - Real.sqrt (x0 * x0 + x1 * x1)

/-- Selection of the exact-distance coefficient by mesh filename
(lines 265-278): `exact_dist` starts `NULL` and three successive `if`s on
`strcmp(mesh_file, ...)` assign it, the later assignments overwriting the
earlier. -/
noncomputable def exactDistFor (mesh_file : String) : Option (ℝ → ℝ → ℝ) :=
  let e0 : Option (ℝ → ℝ → ℝ) := none
  let e1 := if mesh_file = "../data/inline-segment.mesh" then some ExactSegmentDist else e0
  let e2 := if mesh_file = "../data/inline-quad.mesh" then some ExactQuadDist else e1
  if mesh_file = "./cir.msh" then some ExactCircleDist else e2

/-- Dirichlet data on the solution field `w` (lines 203-208): `w = 0.0`, then
`w.ProjectBdrCoefficient(one, bdr)` with `ConstantCoefficient one(1.0)` and
every boundary attribute marked, so every boundary DOF is set to `1` and the
others stay `0`. -/
def w_withBC (isBdrDof : ℕ → Bool) (i : ℕ) : ℝ :=
  if isBdrDof i then 1 else 0

/-- The right-hand side of the distance program (lines 211-212):
`ParLinearForm b; b = 0.0;` with no integrator added — identically zero. -/
def distance_b (_i : ℕ) : ℝ := 0

/-- The right-hand side the claim describes, following the spec's domain
linear-form formula with constant source `1` (spec section 4.4):
`b[i] = Σ_q w_q * detJ_q * 1 * φ_i(x_q)`, over quadrature data
`(w_q, detJ_q, x_q)`. Stated from the spec's words, for comparison with the
program's `distance_b`. -/
def specSource1RHS (qps : List (ℝ × ℝ × ℝ)) (phi : ℕ → ℝ → ℝ) (i : ℕ) : ℝ :=
  (qps.map (fun q => q.1 * q.2.1 * 1 * phi i q.2.2)).sum

/-- C2 counterexample: the distance program does not prescribe Dirichlet
value zero nor assemble its right-hand side from the constant source 1 — at
a boundary DOF the projected Dirichlet value is `1`, which is not `0`, and
the program's right-hand side entry is `0` while the spec's constant-source-1
assembly over a concrete one-point quadrature rule with unit data gives `1`. -/
theorem distance_scenarioA_counterexample :
    w_withBC (fun i => i == 0) 0 = 1 ∧ (1 : ℝ) ≠ 0 ∧
    distance_b 0 = 0 ∧
    specSource1RHS [(1, 1, 0)] (fun _ _ => 1) 0 = 1 := by
  refine ⟨?_, by norm_num, rfl, ?_⟩
  · simp [w_withBC]
  · simp [specSource1RHS]

/-- C2 (amended): the distance program prescribes Dirichlet value one at
every essential boundary DOF (the constant coefficient `1.0` projected on all
boundary attributes), its right-hand side is identically zero, and for the
inline-segment mesh the reported L1 and L-infinity errors are computed
against `ExactSegmentDist`, which on the unit segment agrees with the
closed-form distance `min(x, 1-x)` to the segment's two endpoints. -/
theorem distance_scenarioA (isBdrDof : ℕ → Bool) (i : ℕ) :
    (isBdrDof i = true → w_withBC isBdrDof i = 1) ∧
    (isBdrDof i = false → w_withBC isBdrDof i = 0) ∧
    distance_b i = 0 ∧
    exactDistFor "../data/inline-segment.mesh" = some ExactSegmentDist ∧
    (∀ x0 x1 : ℝ, 0 ≤ x0 → x0 ≤ 1 →
      ExactSegmentDist x0 x1 = min |x0 - 0| |x0 - 1|) := by
  refine ⟨?_, ?_, rfl, ?_, ?_⟩
  · intro h
    simp [w_withBC, h]
  · intro h
    simp [w_withBC, h]
  · simp [exactDistFor]
  · intro x0 x1 h0 h1
    have ha : |x0 - 0| = x0 := by
      rw [sub_zero]
      exact abs_of_nonneg h0
    have hb : |x0 - 1| = 1 - x0 := by
      rw [abs_of_nonpos (by linarith)]
      ring
    rw [ha, hb, ExactSegmentDist]

/-- Witness for C2 (amended) at `isBdrDof = (· == 0)` and `i = 0`: the
boundary DOF carries Dirichlet value `1`, the right-hand side entry is `0`,
and at the physical point `x = 1/4` the exact coefficient evaluates to the
distance `1/4`. -/
theorem distance_scenarioA_witness :
    w_withBC (fun i => i == 0) 0 = 1 ∧ distance_b 0 = 0 ∧
    ExactSegmentDist (1 / 4) 0 = min |(1 : ℝ) / 4 - 0| |(1 : ℝ) / 4 - 1| := by
  have h := distance_scenarioA (fun i => i == 0) 0
  refine ⟨h.1 (by decide), h.2.2.1, ?_⟩
  exact h.2.2.2.2 (1 / 4) 0 (by norm_num) (by norm_num)

/-- The preconditioner choices of distance.cpp (lines 235-243). -/
inductive DistancePrec where
  | boomerAMG : DistancePrec
  | jacobi : DistancePrec
  | noPrec : DistancePrec
deriving DecidableEq

/-- Preconditioner selection (lines 235-243): `prec` starts `NULL`; with
partial assembly (`pa`) an `OperatorJacobiSmoother` is chosen when the space
uses a tensor basis and nothing otherwise; without partial assembly a
`HypreBoomerAMG` is chosen. -/
def selectPrec (pa usesTensorBasis : Bool) : DistancePrec :=
  if pa then
    (if usesTensorBasis then DistancePrec.jacobi else DistancePrec.noPrec)
  else DistancePrec.boomerAMG

/-- Configuration applied to `CGSolver cg` in distance.cpp (lines 245-248). -/
structure CGConfig where
  relTol : ℝ
  maxIter : ℕ
  printLevel : ℕ

/-- `cg.SetRelTol(1e-12); cg.SetMaxIter(5000); cg.SetPrintLevel(1)`
(lines 246-248). -/
noncomputable def distance_cg : CGConfig :=
  { relTol := 1e-12, maxIter := 5000, printLevel := 1 }

/-- C5: the distance program solves with conjugate gradient at relative
tolerance `1e-12` and at most `5000` iterations, preconditioned by algebraic
multigrid (`HypreBoomerAMG`) when a fully assembled matrix is used, by a
Jacobi smoother (`OperatorJacobiSmoother`) when partial assembly is enabled
on a tensor-basis space, and by nothing otherwise. -/
theorem distance_solver_config :
    distance_cg.relTol = 1e-12 ∧
    distance_cg.maxIter = 5000 ∧
    (∀ tb : Bool, selectPrec false tb = DistancePrec.boomerAMG) ∧
    selectPrec true true = DistancePrec.jacobi ∧
    selectPrec true false = DistancePrec.noPrec := by
  refine ⟨rfl, rfl, ?_, rfl, rfl⟩
  intro tb
  rfl

/-- Witness for C5 at the concrete full-assembly configuration: with
`pa = false` and a tensor-basis space the selected preconditioner is
algebraic multigrid. -/
theorem distance_solver_config_witness :
    selectPrec false true = DistancePrec.boomerAMG :=
  distance_solver_config.2.2.1 true

/-- The Varadhan transformation of distance.cpp (lines 258-263): for every
DOF index `i`, `u(i) = -sqrt(t_param) * log(w(i))`. -/
noncomputable def varadhanTransform (t_param : ℝ) (w : ℕ → ℝ) (i : ℕ) : ℝ :=
  -Real.sqrt t_param * Real.log (w i)

/-- The error-reporting stage (lines 279-287): `ComputeL1Error` and
`ComputeMaxError` — abstract functionals here — are invoked on `u`, the
Varadhan transform of the solved field `w`, not on `w`. -/
noncomputable def distance_reportedErrors (t_param : ℝ) (w : ℕ → ℝ)
    (computeL1 computeMax : (ℕ → ℝ) → ℝ) : ℝ × ℝ :=
  (computeL1 (varadhanTransform t_param w),
   computeMax (varadhanTransform t_param w))

/-- C9: the field whose L1 and L-infinity errors the distance program reports
is the entrywise Varadhan transform `u(i) = -sqrt(t_param) * log(w(i))` of
the solver output `w` — not `w` itself, from which it differs at a concrete
instance — and the Dirichlet data projected onto `w` before the solve is the
constant `1` at every boundary DOF. -/
theorem distance_varadhan_reporting :
    (∀ t : ℝ, ∀ w : ℕ → ℝ, ∀ i : ℕ,
      varadhanTransform t w i = -Real.sqrt t * Real.log (w i)) ∧
    (∀ t : ℝ, ∀ w : ℕ → ℝ, ∀ computeL1 computeMax : (ℕ → ℝ) → ℝ,
      distance_reportedErrors t w computeL1 computeMax =
        (computeL1 (varadhanTransform t w), computeMax (varadhanTransform t w))) ∧
    varadhanTransform 1 (fun _ => Real.exp 1) 0 ≠ (fun _ : ℕ => Real.exp 1) 0 ∧
    (∀ isBdrDof : ℕ → Bool, ∀ i : ℕ, isBdrDof i = true → w_withBC isBdrDof i = 1) := by
  refine ⟨fun t w i => rfl, fun t w f g => rfl, ?_, ?_⟩
  · have h1 : varadhanTransform 1 (fun _ => Real.exp 1) 0 = -1 := by
      simp [varadhanTransform, Real.sqrt_one, Real.log_exp]
    rw [h1]
    have hpos := Real.exp_pos 1
    intro hcontra
    simp only [] at hcontra
    linarith
  · intro isBdrDof i h
    simp [w_withBC, h]

/-- Witness for C9 at `t = 1`, `w ≡ exp 1`, boundary indicator `(· == 0)`:
the transformed field at DOF 0 is `-1` and the projected Dirichlet value is
`1`. -/
theorem distance_varadhan_reporting_witness :
    varadhanTransform 1 (fun _ => Real.exp 1) 0 ≠ Real.exp 1 ∧
      w_withBC (fun i => i == 0) 0 = 1 :=
  ⟨distance_varadhan_reporting.2.2.1,
   distance_varadhan_reporting.2.2.2 (fun i => i == 0) 0 (by decide)⟩

/-! ### Command-line outcome of both programs -/

/-- Observable outcome of a program run: the process exit code, whether the
usage text was printed, and whether the assembly/solve phase ran. -/
structure MainOutcome where
  exitCode : ℕ
  printedUsage : Bool
  ranSolve : Bool
deriving DecidableEq

/-- Control flow of `main` in distance.cpp around argument parsing
(lines 128-137 and 363): when `args.Good()` fails, the usage text is printed
and `main` returns `1` before any assembly or solve; otherwise the run
proceeds through assembly and solve and returns `0`. -/
def distance_mainOutcome (argsGood : Bool) : MainOutcome :=
  if argsGood then ⟨0, false, true⟩ else ⟨1, true, false⟩

/-- Control flow of `main` in exAdvection.cpp around argument parsing
(lines 33-38 and 108), with the same shape as the distance program. -/
def exAdvection_mainOutcome (argsGood : Bool) : MainOutcome :=
  if argsGood then ⟨0, false, true⟩ else ⟨1, true, false⟩

/-- C8: for every command-line invocation of either program, failed argument
parsing prints the usage text and exits with status 1 without assembling or
solving, and successful parsing followed by a completed run exits with
status 0. -/
theorem cli_exit_codes (argsGood : Bool) :
    (argsGood = false →
      distance_mainOutcome argsGood = ⟨1, true, false⟩ ∧
      exAdvection_mainOutcome argsGood = ⟨1, true, false⟩) ∧
    (argsGood = true →
      (distance_mainOutcome argsGood).exitCode = 0 ∧
      (distance_mainOutcome argsGood).ranSolve = true ∧
      (exAdvection_mainOutcome argsGood).exitCode = 0 ∧
      (exAdvection_mainOutcome argsGood).ranSolve = true) := by
  constructor
  · intro h
    subst h
    exact ⟨rfl, rfl⟩
  · intro h
    subst h
    exact ⟨rfl, rfl, rfl, rfl⟩

/-- Witness for C8 at the concrete invocations `argsGood = false` and
`argsGood = true`. -/
theorem cli_exit_codes_witness :
    distance_mainOutcome false = ⟨1, true, false⟩ ∧
      (exAdvection_mainOutcome true).exitCode = 0 :=
  ⟨((cli_exit_codes false).1 rfl).1, ((cli_exit_codes true).2 rfl).2.2.1⟩

/-! ### exAdvection.cpp solve stage -/

/-- `u_exact` (exAdvection.cpp lines 111-118): `exp(x(0))`. -/
noncomputable def u_exact (x0 : ℝ) : ℝ := Real.exp x0

/-- `f_exact` (lines 119-126): `-exp(x(0))`. -/
noncomputable def f_exact (x0 : ℝ) : ℝ := -Real.exp x0

/-- The solve stage of `main` in exAdvection.cpp (lines 74-95):
`x.ProjectCoefficient(u)` seeds `x` with the projection of the exact
solution, `GMRES(A, M, *b, x, 1, 1000, 200, 1e-60, 1e-60)` updates `x` in
place starting from that iterate, and `norm = x.ComputeL2Error(u)` is
computed on the updated `x`. The projection, the GMRES update for the fixed
system, and the error functional are abstract parameters. -/
noncomputable def exAdvection_solveStage (project : (ℝ → ℝ) → ℕ → ℝ)
    (gmresUpdate : (ℕ → ℝ) → ℕ → ℝ) (l2err : (ℕ → ℝ) → ℝ) : (ℕ → ℝ) × ℝ :=
  let seed := project u_exact
  let x := gmresUpdate seed
  (x, l2err x)

/-- C10: the initial iterate handed to GMRES in exAdvection.cpp is the
projection of the exact solution `u(x) = exp(x(0))` onto the DG space, and
the reported L2 error is computed on the GMRES output started from that
projected exact solution; since `exp` never vanishes, that seed is not the
zero initial guess under any pointwise (nodal) projection. -/
theorem exAdvection_initial_iterate :
    (∀ x : ℝ, u_exact x = Real.exp x) ∧
    (∀ project : (ℝ → ℝ) → ℕ → ℝ, ∀ gmresUpdate : (ℕ → ℝ) → ℕ → ℝ,
      ∀ l2err : (ℕ → ℝ) → ℝ,
      (exAdvection_solveStage project gmresUpdate l2err).1 =
        gmresUpdate (project u_exact) ∧
      (exAdvection_solveStage project gmresUpdate l2err).2 =
        l2err (gmresUpdate (project u_exact))) ∧
    (∀ x : ℝ, u_exact x ≠ 0) := by
  refine ⟨fun x => rfl, fun project gmresUpdate l2err => ⟨rfl, rfl⟩, ?_⟩
  intro x
  exact Real.exp_ne_zero x

/-- Witness for C10: with nodal projection at the single node `0`, the GMRES
identity update and the trivial error functional, the solve stage outputs the
seed `u_exact 0 = exp 0 = 1 ≠ 0`. -/
theorem exAdvection_initial_iterate_witness :
    (exAdvection_solveStage (fun f _ => f 0) id (fun _ => 0)).1 0 = 1 ∧
      u_exact 0 ≠ 0 := by
  constructor
  · rw [(exAdvection_initial_iterate.2.1 (fun f _ => f 0) id (fun _ => 0)).1]
    simp [u_exact]
  · exact exAdvection_initial_iterate.2.2 0

end MfemExamples
